import Mathlib

/-!
Verification development for the MCP2210 configurator core
(src/configuratorwindow.cpp): the compatible-bitrate search
(getNearestCompatibleBitRate), the configuration diff / task list builder
(prepareTaskList), the task runner (configureDevice), the verification task
(verifyConfiguration), the configuration reader (readDeviceConfiguration)
and the operation validator (validateOperation).

The device channel (the external MCP2210 library) is not part of the
repository sources; it is modelled from the specification as a deterministic
state machine over the volatile SPI settings, with a read-back function for
the bit rate register and an error oracle indexed by operation number.
Machine integers (quint32/quint8/quint16) are modelled as Nat with explicit
reduction modulo 2^32 / 2^8 / 2^16 where the source performs 32/8/16-bit
arithmetic or casts.
-/

/-- 2^32, the modulus of quint32 arithmetic. -/
def U32 : Nat := 4294967296

/-- Unsigned 32-bit subtraction, as computed by C++ on quint32 operands. -/
def u32sub (a b : Nat) : Nat := (a + U32 - b % U32) % U32

/-- Absolute distance on Nat. -/
def ndist (a b : Nat) : Nat := (a - b) + (b - a)

/-- MCP2210::SPISettings: the volatile SPI settings structure (fields as in
the library header used by configuratorwindow.cpp lines 624-631). -/
structure SPISettings where
  nbytes : Nat
  bitrate : Nat
  mode : Nat
  actcs : Nat
  idlcs : Nat
  csdtdly : Nat
  dtcsdly : Nat
  itbytdly : Nat
deriving DecidableEq, Repr

/-- Modelled from the spec: the DeviceChannel state for the volatile SPI
settings path - the device-resident settings, an operation counter, the
accumulated error count (the `errcnt` out-parameter of the library calls)
and the log of configure commands issued (every configureSPISettings call
is recorded, whether or not it suffered a transport error). -/
structure Channel where
  dev : SPISettings
  opIdx : Nat
  errcnt : Nat
  writes : List SPISettings
deriving DecidableEq, Repr

/-- Modelled from the spec: a deterministic channel model. `f` is the
read-back map of the bit rate divider (writing bit rate w leaves the device
at rate `f w`, observable by the immediately following read); `errAt k`
says whether the k-th channel operation suffers a transport error. -/
structure ChanModel where
  f : Nat → Nat
  errAt : Nat → Bool

/-- Modelled from the spec: mcp2210_.configureSPISettings. On success the
device stores the settings with the bit rate clamped by the divider map `f`
(reduced to 32 bits); on a transport error the command does not reach the
device and only the error count grows. The issued command is always
logged. -/
def doConfigure (M : ChanModel) (c : Channel) (s : SPISettings) : Channel :=
  if M.errAt c.opIdx then
    { c with opIdx := c.opIdx + 1, errcnt := c.errcnt + 1, writes := c.writes ++ [s] }
  else
    { dev := { s with bitrate := M.f s.bitrate % U32 },
      opIdx := c.opIdx + 1, errcnt := c.errcnt, writes := c.writes ++ [s] }

/-- Modelled from the spec: mcp2210_.getSPISettings. Returns the
device-resident settings; a transport error only grows the error count. -/
def doGet (M : ChanModel) (c : Channel) : SPISettings × Channel :=
  if M.errAt c.opIdx then
    (c.dev, { c with opIdx := c.opIdx + 1, errcnt := c.errcnt + 1 })
  else
    (c.dev, { c with opIdx := c.opIdx + 1 })

/-- The state of the probing loop of getNearestCompatibleBitRate
(configuratorwindow.cpp lines 641-660): the loop variables, the channel,
and whether the loop has exited through the break statement. -/
structure LoopState where
  testBitrate : Nat
  nearestGreaterOrEqualBitrate : Nat
  nearestLesserOrEqualBitrate : Nat
  chan : Channel
  brk : Bool
deriving DecidableEq, Repr

/-- One iteration of the probing loop body (configuratorwindow.cpp lines
645-659): write the candidate rate, read it back, and either record an
achievable rate (terminating when it is at or below the target, otherwise
decrementing by one) or jump down to the returned rate. All updates of
`testSPISettings` mutate only its bitrate field, so the written settings are
always the entry snapshot with the bitrate replaced. -/
def loopIter (M : ChanModel) (currentSPISettings : SPISettings) (bitrate : Nat)
    (st : LoopState) : LoopState :=
  let c1 := doConfigure M st.chan { currentSPISettings with bitrate := st.testBitrate }
  let g := doGet M c1
  let returnedBitrate := g.1.bitrate
  let c2 := g.2
  if returnedBitrate = st.testBitrate then
    let nGE := if bitrate ≤ st.testBitrate then st.testBitrate
               else st.nearestGreaterOrEqualBitrate
    if st.testBitrate ≤ bitrate then
      { st with nearestGreaterOrEqualBitrate := nGE,
                nearestLesserOrEqualBitrate := st.testBitrate,
                chan := c2, brk := true }
    else
      { st with testBitrate := (st.testBitrate + U32 - 1) % U32,
                nearestGreaterOrEqualBitrate := nGE, chan := c2 }
  else
    { st with testBitrate := returnedBitrate, chan := c2 }

/-- The probing loop `while (errcnt == 0) { ... }` with an explicit fuel
bound; a state that has exited through the break statement or accumulated a
transport error is returned unchanged. -/
def loopRun (M : ChanModel) (currentSPISettings : SPISettings) (bitrate : Nat) :
    Nat → LoopState → LoopState
  | 0, st => st
  | Nat.succ fuel, st =>
    if st.chan.errcnt = 0 ∧ st.brk = false then
      loopRun M currentSPISettings bitrate fuel (loopIter M currentSPISettings bitrate st)
    else st

/-- The result of the bitrate search: the returned value, the loop state at
loop exit (exposing the final nearestGE / nearestLE candidates) and the
channel after the final restoring write. -/
structure BitrateSearchResult where
  retval : Nat
  finalState : LoopState
  chan : Channel
deriving DecidableEq, Repr

/-- ConfiguratorWindow::getNearestCompatibleBitRate (configuratorwindow.cpp
lines 635-669), with the loop state exposed. Steps: snapshot the volatile
SPI settings; run the probing loop from testBitrate = 4 * bitrate (quint32
arithmetic) with nearestGE initialised to the device upper limit `bmax` and
nearestLE to the lower limit `bmin` (Modelled from the spec: the numeric
values of MCP2210Limits::BITRATE_MAX / BITRATE_MIN live in mcp2210limits.h,
which is not among the sources, so the limits are parameters here); write
the snapshot back; pick whichever candidate the strict unsigned comparison
(nearestGE - bitrate) < (bitrate - nearestLE) prefers. -/
def getNearestCompatibleBitRateFull (M : ChanModel) (bmin bmax fuel : Nat)
    (c0 : Channel) (bitrate : Nat) : BitrateSearchResult :=
  let g0 := doGet M c0
  let currentSPISettings := g0.1
  let c1 := g0.2
  let testBitrate := 4 * bitrate % U32
  let st0 : LoopState :=
    { testBitrate := testBitrate, nearestGreaterOrEqualBitrate := bmax,
      nearestLesserOrEqualBitrate := bmin, chan := c1, brk := false }
  let st := loopRun M currentSPISettings bitrate fuel st0
  let c2 := doConfigure M st.chan currentSPISettings
  let retval :=
    if u32sub st.nearestGreaterOrEqualBitrate bitrate <
        u32sub bitrate st.nearestLesserOrEqualBitrate then
      st.nearestGreaterOrEqualBitrate
    else
      st.nearestLesserOrEqualBitrate
  { retval := retval, finalState := st, chan := c2 }

/-- The value returned by ConfiguratorWindow::getNearestCompatibleBitRate. -/
def getNearestCompatibleBitRate (M : ChanModel) (bmin bmax fuel : Nat)
    (c0 : Channel) (bitrate : Nat) : Nat :=
  (getNearestCompatibleBitRateFull M bmin bmax fuel c0 bitrate).retval

/-- The read-back map of a deterministic channel that maps each written bit
rate to the nearest achievable value at or below it: `f w` is at most `w`,
is itself achievable (a fixed point), and dominates every achievable value
at or below `w`. -/
def NiceReadback (f : Nat → Nat) : Prop :=
  ∀ w, f w ≤ w ∧ f (f w) = f w ∧ ∀ a, f a = a → a ≤ w → a ≤ f w

/-- A channel on which no transport error ever occurs. -/
def noErrors (M : ChanModel) : Prop := ∀ k, M.errAt k = false

/-- MCP2210::USBParameters (fields as read/written in configuratorwindow.cpp
lines 575-583 and 590-594). -/
structure USBParameters where
  vid : Nat
  pid : Nat
  maxpow : Nat
  powmode : Nat
  rmwakeup : Bool
deriving DecidableEq, Repr

/-- MCP2210::ChipSettings (fields as read/written in configuratorwindow.cpp
lines 495-517 and 595-622). -/
structure ChipSettings where
  gp0 : Nat
  gp1 : Nat
  gp2 : Nat
  gp3 : Nat
  gp4 : Nat
  gp5 : Nat
  gp6 : Nat
  gp7 : Nat
  gp8 : Nat
  gpdir : Nat
  gpout : Nat
  rmwakeup : Bool
  intmode : Nat
  nrelspi : Bool
deriving DecidableEq, Repr

/-- The Configuration aggregate (the five sections assigned in
readDeviceConfiguration / getEditedConfiguration); equality is structural
field-by-field comparison. -/
structure Configuration where
  manufacturer : String
  product : String
  usbParameters : USBParameters
  chipSettings : ChipSettings
  spiSettings : SPISettings
deriving DecidableEq, Repr

/-- The session state of ConfiguratorWindow that the core routines touch:
the device-resident and edited configurations, the access mode, and the
err_ / errmsg_ pair set by validateOperation. -/
structure Session where
  deviceConfiguration : Configuration
  editedConfiguration : Configuration
  accessMode : Nat
  err : Bool
  errmsg : String
deriving DecidableEq, Repr

/-- The fixed reconnect prompt of validateOperation (line 840). -/
def disconnectedMessage : String := "Device disconnected.\n\nPlease reconnect it and try again."

/-- The verification failure message of verifyConfiguration (line 423). -/
def failedVerificationMessage : String := "Failed verification."

/-- The first fragment of the validateOperation failure format (line 843). -/
def failureMessagePre : String := "Failed to "

/-- The middle fragment of the validateOperation failure format (line 843),
up to and including the bullet introducing the first error line. -/
def failureMessageMid : String := ". The operation returned the following error(s):\n– "

/-- QString::chop(1) as used on errstr (line 842): remove the last
character, whatever it is. -/
def chop1 (s : String) : String := String.mk s.data.dropLast

/-- QString::replace of every newline by a newline plus bullet, as in
errstr.replace on line 843. The pattern is the single character newline, so
the replacement is a character-wise traversal. -/
def replaceNewlines : List Char → List Char
  | [] => []
  | c :: rest =>
    if c = '\n' then '\n' :: '–' :: ' ' :: replaceNewlines rest
    else c :: replaceNewlines rest

/-- The multi-line error text turned into a bulleted list (line 843). -/
def bulletize (s : String) : String := String.mk (replaceNewlines s.data)

/-- The failure message built by validateOperation on line 843 (tr with an
untranslated source text and .arg substitution of %1 and %2 are modelled as
plain concatenation): chop the last character of errstr, then bullet every
remaining newline. -/
def failureMessage (operation errstr : String) : String :=
  failureMessagePre ++ operation ++ failureMessageMid ++ bulletize (chop1 errstr)

/-- ConfiguratorWindow::validateOperation (configuratorwindow.cpp lines
835-846). The disconnected flag stands for mcp2210_.disconnected(). With a
zero error count nothing happens; otherwise err_ is raised with either the
fixed reconnect prompt or the formatted failure message. -/
def validateOperation (operation : String) (errcnt : Nat) (errstr : String)
    (disc : Bool) (s : Session) : Session :=
  if 0 < errcnt then
    if disc then { s with err := true, errmsg := disconnectedMessage }
    else { s with err := true, errmsg := failureMessage operation errstr }
  else s

/-- Modelled from the spec: what the six channel getters used by
readDeviceConfiguration return in one execution - the five configuration
sections, the access mode, and the accumulated error count / error text /
disconnected state of the channel. -/
structure DevReport where
  manufacturer : String
  product : String
  usbParameters : USBParameters
  chipSettings : ChipSettings
  spiSettings : SPISettings
  accessMode : Nat
  errcnt : Nat
  errstr : String
  disconnected : Bool
deriving DecidableEq, Repr

/-- The Configuration assembled from the values returned by the channel
getters (the five assignments of configuratorwindow.cpp lines 727-731). -/
def reportedConfiguration (ch : DevReport) : Configuration :=
  { manufacturer := ch.manufacturer, product := ch.product,
    usbParameters := ch.usbParameters, chipSettings := ch.chipSettings,
    spiSettings := ch.spiSettings }

/-- The operation name passed to validateOperation on line 733. -/
def readDeviceConfigurationName : String := "read device configuration"

/-- ConfiguratorWindow::readDeviceConfiguration (configuratorwindow.cpp
lines 723-734): unconditionally assign every deviceConfiguration_ field and
accessMode_ from the getter results, then validate the accumulated error
count. -/
def readDeviceConfiguration (ch : DevReport) (s : Session) : Session :=
  let s1 := { s with deviceConfiguration := reportedConfiguration ch,
                     accessMode := ch.accessMode }
  validateOperation readDeviceConfigurationName ch.errcnt ch.errstr ch.disconnected s1

/-- ConfiguratorWindow::verifyConfiguration (configuratorwindow.cpp lines
416-426): re-read the device configuration; when that leaves err_ clear,
compare the freshly read deviceConfiguration_ against editedConfiguration_
and raise the fixed verification failure on a mismatch. (The
displayConfiguration call is GUI-only and has no session effect.) -/
def verifyConfiguration (ch : DevReport) (s : Session) : Session :=
  let s1 := readDeviceConfiguration ch s
  if s1.err = false then
    if s1.deviceConfiguration ≠ s1.editedConfiguration then
      { s1 with err := true, errmsg := failedVerificationMessage }
    else s1
  else s1

/-- The task names of prepareTaskList (configuratorwindow.cpp 694-720). -/
def taskWriteManufacturerDesc : String := "writeManufacturerDesc"

/-- Task name: write the product descriptor. -/
def taskWriteProductDesc : String := "writeProductDesc"

/-- Task name: write the USB parameters. -/
def taskWriteUSBParameters : String := "writeUSBParameters"

/-- Task name: write the chip settings. -/
def taskWriteChipSettings : String := "writeChipSettings"

/-- Task name: verify the configuration. -/
def taskVerifyConfiguration : String := "verifyConfiguration"

/-- Task name: apply the chip settings to volatile memory. -/
def taskApplyChipSettings : String := "applyChipSettings"

/-- Task name: apply the SPI settings to volatile memory. -/
def taskApplySPISettings : String := "applySPISettings"

/-- ConfiguratorWindow::prepareTaskList (configuratorwindow.cpp lines
694-720). The checkBoxApplyImmediately state is the `applyImmediately`
parameter. Each differing section appends its write task; the verification
task is always appended; with apply-immediately set, the two apply tasks
are appended after it for the sections that differ. -/
def prepareTaskList (edited device : Configuration) (applyImmediately : Bool) :
    List String :=
  let tasks : List String := []
  let tasks := if edited.manufacturer ≠ device.manufacturer
               then tasks ++ [taskWriteManufacturerDesc] else tasks
  let tasks := if edited.product ≠ device.product
               then tasks ++ [taskWriteProductDesc] else tasks
  let tasks := if edited.usbParameters ≠ device.usbParameters
               then tasks ++ [taskWriteUSBParameters] else tasks
  let tasks := if edited.chipSettings ≠ device.chipSettings
               then tasks ++ [taskWriteChipSettings] else tasks
  let tasks := tasks ++ [taskVerifyConfiguration]
  if applyImmediately then
    let tasks := if edited.chipSettings ≠ device.chipSettings
                 then tasks ++ [taskApplyChipSettings] else tasks
    if edited.spiSettings ≠ device.spiSettings
    then tasks ++ [taskApplySPISettings] else tasks
  else tasks

/-- The loop of ConfiguratorWindow::configureDevice (configuratorwindow.cpp
lines 470-475): run each task in order (QMetaObject::invokeMethod dispatch
is abstracted as the `exec` map from task names to session transformers),
aborting as soon as err_ is set. Returns the final session and the list of
tasks that were actually invoked, in invocation order. -/
def configureDeviceLoop (exec : String → Session → Session) :
    List String → Session → Session × List String
  | [], s => (s, [])
  | task :: rest, s =>
    let s1 := exec task s
    if s1.err = true then (s1, [task])
    else
      let r := configureDeviceLoop exec rest s1
      (r.1, task :: r.2)

/-- ConfiguratorWindow::configureDevice (configuratorwindow.cpp lines
465-482) on a given task list: clear err_, then run the loop. The final
err_ decides between the success and the failure report. -/
def configureDevice (exec : String → Session → Session) (tasks : List String)
    (s : Session) : Session × List String :=
  configureDeviceLoop exec tasks { s with err := false }

/-- Sequential execution of a task list with no abort, for specification
purposes: the session after running every task in order. -/
def runSeq (exec : String → Session → Session) : List String → Session → Session
  | [], s => s
  | task :: rest, s => runSeq exec rest (exec task s)

/-- Decides whether every task of the list validates cleanly when run in
order from the given session (no task leaves err_ set). -/
def cleanRun (exec : String → Session → Session) : List String → Session → Bool
  | [], _ => true
  | task :: rest, s =>
    let s1 := exec task s
    if s1.err = true then false else cleanRun exec rest s1

/-- A successful configure stores the clamped settings and logs the write. -/
theorem doConfigure_ok (M : ChanModel) (c : Channel) (s : SPISettings)
    (h : M.errAt c.opIdx = false) :
    doConfigure M c s =
      { dev := { s with bitrate := M.f s.bitrate % U32 },
        opIdx := c.opIdx + 1, errcnt := c.errcnt, writes := c.writes ++ [s] } := by
  simp [doConfigure, h]

/-- A successful get returns the device settings and bumps the counter. -/
theorem doGet_ok (M : ChanModel) (c : Channel) (h : M.errAt c.opIdx = false) :
    doGet M c = (c.dev, { c with opIdx := c.opIdx + 1 }) := by
  simp [doGet, h]

/-- A state that has exited through the break is left untouched by the loop. -/
theorem loopRun_stop (M : ChanModel) (snap : SPISettings) (b fuel : Nat)
    (st : LoopState) (h : st.brk = true) :
    loopRun M snap b fuel st = st := by
  cases fuel <;> simp [loopRun, h]

/-- The loop body on an error-free channel, written out: probe `t`, observe
the clamped rate, and branch exactly as lines 648-659 do. -/
theorem loopIter_noerr (M : ChanModel) (he : noErrors M) (snap : SPISettings)
    (b t nGE nLE : Nat) (c : Channel) (brk : Bool) :
    loopIter M snap b ⟨t, nGE, nLE, c, brk⟩ =
      if M.f t % U32 = t then
        if t ≤ b then
          ⟨t, if b ≤ t then t else nGE, t,
            { dev := { snap with bitrate := M.f t % U32 }, opIdx := c.opIdx + 2,
              errcnt := c.errcnt,
              writes := c.writes ++ [{ snap with bitrate := t }] }, true⟩
        else
          ⟨(t + U32 - 1) % U32, if b ≤ t then t else nGE, nLE,
            { dev := { snap with bitrate := M.f t % U32 }, opIdx := c.opIdx + 2,
              errcnt := c.errcnt,
              writes := c.writes ++ [{ snap with bitrate := t }] }, brk⟩
      else
        ⟨M.f t % U32, nGE, nLE,
          { dev := { snap with bitrate := M.f t % U32 }, opIdx := c.opIdx + 2,
            errcnt := c.errcnt,
            writes := c.writes ++ [{ snap with bitrate := t }] }, brk⟩ := by
  simp only [loopIter, doConfigure, doGet, he c.opIdx, he (c.opIdx + 1),
    Bool.false_eq_true, if_false]

/-- Characterisation of the probing loop on an error-free nicely clamping
channel: started anywhere at or above the greatest achievable rate not
exceeding the target `b`, it always exits through the break with
nearestLE equal to that greatest achievable rate `M.f b`, while nearestGE
ends as the least achievable rate in `[b, t]` when one exists, and is
otherwise left at its initial value (with no achievable rate in `[b, t]`
at all). -/
theorem loopRun_char (M : ChanModel) (hf : NiceReadback M.f) (he : noErrors M)
    (snap : SPISettings) (b : Nat) :
    ∀ fuel t nGE nLE (c : Channel), t < U32 → M.f b ≤ t → t < fuel → c.errcnt = 0 →
    ∃ st : LoopState,
      loopRun M snap b fuel ⟨t, nGE, nLE, c, false⟩ = st ∧
      st.brk = true ∧ st.chan.errcnt = 0 ∧
      st.nearestLesserOrEqualBitrate = M.f b ∧
      (∀ a, M.f a = a → b ≤ a → a ≤ t → st.nearestGreaterOrEqualBitrate ≤ a) ∧
      ((st.nearestGreaterOrEqualBitrate = nGE ∧
          ∀ a, M.f a = a → b ≤ a → a ≤ t → False) ∨
       (M.f st.nearestGreaterOrEqualBitrate = st.nearestGreaterOrEqualBitrate ∧
          b ≤ st.nearestGreaterOrEqualBitrate ∧
          st.nearestGreaterOrEqualBitrate ≤ t)) := by
  intro fuel
  induction fuel with
  | zero => intro t nGE nLE c ht hfb hlt hc; omega
  | succ n ih =>
    intro t nGE nLE c ht hfb hlt hc
    have hft_le : M.f t ≤ t := (hf t).1
    have hm : M.f t % U32 = M.f t := Nat.mod_eq_of_lt (lt_of_le_of_lt hft_le ht)
    have hcond : (⟨t, nGE, nLE, c, false⟩ : LoopState).chan.errcnt = 0 ∧
        (⟨t, nGE, nLE, c, false⟩ : LoopState).brk = false := ⟨hc, rfl⟩
    rw [loopRun, if_pos hcond, loopIter_noerr M he snap b t nGE nLE c false, hm]
    by_cases hft : M.f t = t
    · rw [if_pos hft]
      by_cases hbt : t ≤ b
      · rw [if_pos hbt, loopRun_stop M snap b n _ rfl]
        have htfb : t = M.f b := Nat.le_antisymm ((hf b).2.2 t hft hbt) hfb
        refine ⟨_, rfl, rfl, hc, htfb, ?_, ?_⟩
        · intro a ha hba hat
          have : a = t := Nat.le_antisymm hat (Nat.le_trans hbt hba)
          subst this
          by_cases hbt2 : b ≤ a
          · rw [if_pos hbt2]
          · omega
        · by_cases hbt2 : b ≤ t
          · right
            rw [if_pos hbt2]
            exact ⟨hft, hbt2, Nat.le_refl t⟩
          · left
            rw [if_neg hbt2]
            exact ⟨rfl, fun a ha hba hat => hbt2 (Nat.le_trans hba hat)⟩
      · rw [if_neg hbt]
        have hb_lt : b < t := Nat.lt_of_not_le hbt
        have hbt2 : b ≤ t := Nat.le_of_lt hb_lt
        rw [if_pos hbt2]
        have ht2 := ht
        have hdec : (t + U32 - 1) % U32 = t - 1 := by
          simp only [U32] at ht2 ⊢
          omega
        rw [hdec]
        obtain ⟨st, heq, hbrk, herr, hnle, hlb, hdisj⟩ :=
          ih (t - 1) t nLE
            { dev := { snap with bitrate := M.f t }, opIdx := c.opIdx + 2,
              errcnt := c.errcnt,
              writes := c.writes ++ [{ snap with bitrate := t }] }
            (by omega) (by have := (hf b).1; omega) (by omega) hc
        refine ⟨st, heq, hbrk, herr, hnle, ?_, ?_⟩
        · intro a ha hba hat
          by_cases hat1 : a ≤ t - 1
          · exact hlb a ha hba hat1
          · have : a = t := by omega
            subst this
            rcases hdisj with ⟨he2, _⟩ | ⟨_, _, h3⟩
            · omega
            · omega
        · rcases hdisj with ⟨he2, hemp⟩ | ⟨h1, h2, h3⟩
          · right
            rw [he2]
            exact ⟨hft, hbt2, Nat.le_refl t⟩
          · right
            exact ⟨h1, h2, by omega⟩
    · rw [if_neg hft]
      have hft_lt : M.f t < t := Nat.lt_of_le_of_ne hft_le hft
      obtain ⟨st, heq, hbrk, herr, hnle, hlb, hdisj⟩ :=
        ih (M.f t) nGE nLE
          { dev := { snap with bitrate := M.f t }, opIdx := c.opIdx + 2,
            errcnt := c.errcnt,
            writes := c.writes ++ [{ snap with bitrate := t }] }
          (by omega) ((hf t).2.2 (M.f b) (hf b).2.1 hfb) (by omega) hc
      refine ⟨st, heq, hbrk, herr, hnle, ?_, ?_⟩
      · intro a ha hba hat
        exact hlb a ha hba ((hf t).2.2 a ha hat)
      · rcases hdisj with ⟨he2, hemp⟩ | ⟨h1, h2, h3⟩
        · exact Or.inl ⟨he2, fun a ha hba hat => hemp a ha hba ((hf t).2.2 a ha hat)⟩
        · exact Or.inr ⟨h1, h2, Nat.le_trans h3 hft_le⟩

/-- Unsigned 32-bit subtraction computes the true difference when it does
not wrap. -/
theorem u32sub_of_le (a b : Nat) (hba : b ≤ a) (ha : a < U32) : u32sub a b = a - b := by
  simp only [u32sub, U32] at *
  omega

/-- Unsigned 32-bit subtraction wraps when the subtrahend is larger. -/
theorem u32sub_of_gt (a b : Nat) (hab : a < b) (hb : b < U32) : u32sub a b = a + U32 - b := by
  simp only [u32sub, U32] at *
  omega

/-- C1 (amended): on an error-free deterministic channel whose read-back
maps every written rate to the nearest achievable value at or below it, and
for a requested rate whose quadruple does not overflow 32 bits, the search
terminates through the break; the final nearestLE is exactly the greatest
achievable rate at or below the request; the returned value is one of the
two final candidates and is either achievable or the untouched nearestGE
initialisation BITRATE_MAX (the latter only when no achievable rate exists
in [requested, 4 * requested]); and no achievable rate lying strictly
between the final nearestLE and nearestGE candidates is strictly closer to
the request than the returned value. -/
theorem getNearestCompatibleBitRate_nearest (M : ChanModel) (bmin bmax fuel bitrate : Nat)
    (c0 : Channel) (hf : NiceReadback M.f) (he : noErrors M)
    (hb4 : 4 * bitrate < U32) (hmax : bmax < U32) (hfuel : 4 * bitrate < fuel)
    (hc : c0.errcnt = 0) :
    let res := getNearestCompatibleBitRateFull M bmin bmax fuel c0 bitrate
    res.finalState.brk = true ∧
    res.finalState.nearestLesserOrEqualBitrate = M.f bitrate ∧
    (res.retval = res.finalState.nearestGreaterOrEqualBitrate ∨
     res.retval = res.finalState.nearestLesserOrEqualBitrate) ∧
    (M.f res.retval = res.retval ∨
     (res.retval = bmax ∧ ∀ a, M.f a = a → bitrate ≤ a → a ≤ 4 * bitrate → False)) ∧
    (∀ a, M.f a = a → res.finalState.nearestLesserOrEqualBitrate < a →
       a < res.finalState.nearestGreaterOrEqualBitrate →
       ndist bitrate res.retval ≤ ndist bitrate a) := by
  intro res
  have hres : res = getNearestCompatibleBitRateFull M bmin bmax fuel c0 bitrate := rfl
  have h40 : 4 * bitrate % U32 = 4 * bitrate := Nat.mod_eq_of_lt hb4
  have hble : M.f bitrate ≤ 4 * bitrate := Nat.le_trans (hf bitrate).1 (by omega)
  obtain ⟨st, heq, hbrk, herr, hnle, hlb, hdisj⟩ :=
    loopRun_char M hf he c0.dev bitrate fuel (4 * bitrate) bmax bmin
      { c0 with opIdx := c0.opIdx + 1 } hb4 hble hfuel hc
  have hsplit : getNearestCompatibleBitRateFull M bmin bmax fuel c0 bitrate =
      { retval := if u32sub st.nearestGreaterOrEqualBitrate bitrate <
            u32sub bitrate st.nearestLesserOrEqualBitrate
          then st.nearestGreaterOrEqualBitrate else st.nearestLesserOrEqualBitrate,
        finalState := st, chan := doConfigure M st.chan c0.dev } := by
    simp only [getNearestCompatibleBitRateFull, doGet_ok M c0 (he c0.opIdx), h40, heq]
  rw [hres, hsplit]
  dsimp only
  have hbu : bitrate < U32 := by omega
  have hfb_le : M.f bitrate ≤ bitrate := (hf bitrate).1
  refine ⟨hbrk, hnle, ?_, ?_, ?_⟩
  · by_cases hcmp : u32sub st.nearestGreaterOrEqualBitrate bitrate <
        u32sub bitrate st.nearestLesserOrEqualBitrate
    · rw [if_pos hcmp]; exact Or.inl rfl
    · rw [if_neg hcmp]; exact Or.inr rfl
  · by_cases hcmp : u32sub st.nearestGreaterOrEqualBitrate bitrate <
        u32sub bitrate st.nearestLesserOrEqualBitrate
    · rw [if_pos hcmp]
      rcases hdisj with ⟨he2, hemp⟩ | ⟨h1, _, _⟩
      · exact Or.inr ⟨he2, hemp⟩
      · exact Or.inl h1
    · rw [if_neg hcmp]
      rw [hnle]
      exact Or.inl (hf bitrate).2.1
  · intro a ha h1 h2
    rw [hnle] at h1
    have hba : bitrate < a := by
      rcases Nat.lt_or_ge bitrate a with h | h
      · exact h
      · exact absurd ((hf bitrate).2.2 a ha h) (by omega)
    rcases hdisj with ⟨hge_eq, hemp⟩ | ⟨hfix, hge, hle⟩
    · have ha4 : 4 * bitrate < a := by
        rcases Nat.lt_or_ge (4 * bitrate) a with h | h
        · exact h
        · exact absurd (hemp a ha (Nat.le_of_lt hba) h) (fun x => x)
      rw [hge_eq] at h2
      rcases Nat.lt_or_ge bmax bitrate with hbm | hbm
      · omega
      · have hsub1 : u32sub bitrate st.nearestLesserOrEqualBitrate =
            bitrate - M.f bitrate := by
          rw [hnle]
          exact u32sub_of_le bitrate (M.f bitrate) hfb_le hbu
        have hsub2 : u32sub st.nearestGreaterOrEqualBitrate bitrate = bmax - bitrate := by
          rw [hge_eq]
          exact u32sub_of_le bmax bitrate hbm hmax
        rw [hsub1, hsub2, hge_eq, hnle]
        by_cases hcmp : bmax - bitrate < bitrate - M.f bitrate
        · rw [if_pos hcmp]
          simp only [ndist]
          omega
        · rw [if_neg hcmp]
          simp only [ndist]
          omega
    · have : st.nearestGreaterOrEqualBitrate ≤ a :=
        hlb a ha (Nat.le_of_lt hba) (Nat.le_trans (Nat.le_of_lt h2) hle)
      omega

/-- A deterministic channel whose only achievable bit rate is 0: every
write reads back as 0 (the nearest achievable value at or below any
request), and no transport error ever occurs. -/
def constZeroModel : ChanModel := { f := fun _ => 0, errAt := fun _ => false }

/-- An error-free channel on which every bit rate is achievable (identity
read-back). -/
def idModel : ChanModel := { f := fun w => w, errAt := fun _ => false }

/-- A channel with identity read-back that suffers transport errors from
its third operation on: the first probe write lands on the device, after
which every operation (including the final restore write) fails. -/
def dropModel : ChanModel := { f := fun w => w, errAt := fun k => decide (2 ≤ k) }

/-- A concrete entry channel state: the device volatile SPI settings hold
bit rate 1000 and zeros elsewhere. -/
def entryChannel : Channel :=
  { dev := { nbytes := 0, bitrate := 1000, mode := 0, actcs := 0, idlcs := 0,
             csdtdly := 0, dtcsdly := 0, itbytdly := 0 },
    opIdx := 0, errcnt := 0, writes := [] }

/-- C1, counterexample to the claim as stated: on the error-free
deterministic channel whose read-back maps every written rate to the
nearest achievable value at or below it (here the only achievable rate is
0), the search for requested rate 11999999 terminates through the break and
returns 12000000 - the untouched BITRATE_MAX initialisation of nearestGE -
which is not achievable and was never observed as an accepted probe, so the
returned value is not an achievable rate. -/
theorem getNearestCompatibleBitRate_unachievable_cex :
    NiceReadback constZeroModel.f ∧ noErrors constZeroModel ∧
    (getNearestCompatibleBitRateFull constZeroModel 1500 12000000 5
        entryChannel 11999999).finalState.brk = true ∧
    getNearestCompatibleBitRate constZeroModel 1500 12000000 5
        entryChannel 11999999 = 12000000 ∧
    constZeroModel.f 12000000 ≠ 12000000 := by
  refine ⟨?_, fun k => rfl, by decide, by decide, by decide⟩
  intro w
  refine ⟨Nat.zero_le w, rfl, ?_⟩
  intro a ha _
  simp only [constZeroModel] at ha ⊢
  omega

/-- C1, witness: the amended nearest-rate theorem applied to the identity
read-back channel at requested rate 1000. -/
theorem getNearestCompatibleBitRate_nearest_witness :
    (getNearestCompatibleBitRateFull idModel 1500 12000000 4001
        entryChannel 1000).finalState.brk = true ∧
    (getNearestCompatibleBitRateFull idModel 1500 12000000 4001
        entryChannel 1000).finalState.nearestLesserOrEqualBitrate = idModel.f 1000 := by
  obtain ⟨h1, h2, _⟩ :=
    getNearestCompatibleBitRate_nearest idModel 1500 12000000 4001 1000 entryChannel
      (fun w => ⟨Nat.le_refl w, rfl, fun a _ h => h⟩) (fun k => rfl)
      (by decide) (by decide) (by decide) rfl
  exact ⟨h1, h2⟩

/-- The first component of a get is always the device settings. -/
theorem doGet_fst (M : ChanModel) (c : Channel) : (doGet M c).1 = c.dev := by
  unfold doGet
  split <;> rfl

/-- A configure always logs the written settings, error or not. -/
theorem doConfigure_writes (M : ChanModel) (c : Channel) (s : SPISettings) :
    (doConfigure M c s).writes = c.writes ++ [s] := by
  unfold doConfigure
  split <;> rfl

/-- The channel left by the search is the loop channel after the final
restoring write of the entry snapshot. -/
theorem getNearestFull_chan (M : ChanModel) (bmin bmax fuel : Nat) (c0 : Channel)
    (bitrate : Nat) :
    (getNearestCompatibleBitRateFull M bmin bmax fuel c0 bitrate).chan =
      doConfigure M
        (getNearestCompatibleBitRateFull M bmin bmax fuel c0 bitrate).finalState.chan
        (doGet M c0).1 := by
  rfl

/-- C2 (amended): the search always issues a final configure write of the
exact snapshot captured on entry - it is the last command on the write log
whatever transport errors occurred, including when the loop aborted early -
and whenever that restore write itself executes without a transport error
(on a snapshot bit rate the divider reproduces), the device volatile SPI
settings on exit equal those captured on entry. -/
theorem getNearestCompatibleBitRate_restores (M : ChanModel) (bmin bmax fuel bitrate : Nat)
    (c0 : Channel) :
    let res := getNearestCompatibleBitRateFull M bmin bmax fuel c0 bitrate
    res.chan.writes.getLast? = some c0.dev ∧
    (M.errAt res.finalState.chan.opIdx = false →
     M.f c0.dev.bitrate % U32 = c0.dev.bitrate →
     res.chan.dev = c0.dev) := by
  intro res
  have hres : res = getNearestCompatibleBitRateFull M bmin bmax fuel c0 bitrate := rfl
  constructor
  · rw [hres, getNearestFull_chan, doGet_fst, doConfigure_writes]
    simp
  · intro hok hfix
    rw [hres, getNearestFull_chan, doGet_fst] at *
    rw [doConfigure_ok M _ c0.dev hok, hfix]

/-- C2, counterexample to the claim as stated: on a channel that errors
from its third operation on, the loop aborts after one probe and the final
restore write itself fails, so the device volatile SPI settings on exit
(bit rate 4000, left by the probe) differ from those captured on entry
(bit rate 1000) - even though the restore command was duly issued. -/
theorem getNearestCompatibleBitRate_restore_cex :
    0 < (getNearestCompatibleBitRateFull dropModel 1500 12000000 10
          entryChannel 1000).chan.errcnt ∧
    (getNearestCompatibleBitRateFull dropModel 1500 12000000 10
        entryChannel 1000).chan.writes.getLast? = some entryChannel.dev ∧
    (getNearestCompatibleBitRateFull dropModel 1500 12000000 10
        entryChannel 1000).chan.dev ≠ entryChannel.dev := by
  refine ⟨by decide, by decide, by decide⟩

/-- C2, witness: the amended restore theorem applied to the error-free
identity channel. -/
theorem getNearestCompatibleBitRate_restores_witness :
    (getNearestCompatibleBitRateFull idModel 1500 12000000 0
        entryChannel 1000).chan.writes.getLast? = some entryChannel.dev ∧
    (getNearestCompatibleBitRateFull idModel 1500 12000000 0
        entryChannel 1000).chan.dev = entryChannel.dev := by
  obtain ⟨h1, h2⟩ :=
    getNearestCompatibleBitRate_restores idModel 1500 12000000 0 1000 entryChannel
  exact ⟨h1, h2 rfl (by decide)⟩

/-- C3: the value returned by the search is exactly the candidate chosen by
the strict unsigned 32-bit comparison (nearestGE - requested) <
(requested - nearestLE) on the final candidates; an exact tie of the two
unsigned distances resolves to nearestLE; and whenever the final candidates
bracket the request without wrap-around, this is precisely the candidate of
smaller absolute distance to the request, ties again resolving to
nearestLE. -/
theorem getNearestCompatibleBitRate_selection (M : ChanModel) (bmin bmax fuel bitrate : Nat)
    (c0 : Channel) (hb : bitrate < U32) :
    let st := (getNearestCompatibleBitRateFull M bmin bmax fuel c0 bitrate).finalState
    let r := getNearestCompatibleBitRate M bmin bmax fuel c0 bitrate
    (r = if u32sub st.nearestGreaterOrEqualBitrate bitrate <
           u32sub bitrate st.nearestLesserOrEqualBitrate
         then st.nearestGreaterOrEqualBitrate else st.nearestLesserOrEqualBitrate) ∧
    (u32sub st.nearestGreaterOrEqualBitrate bitrate =
       u32sub bitrate st.nearestLesserOrEqualBitrate →
     r = st.nearestLesserOrEqualBitrate) ∧
    (st.nearestLesserOrEqualBitrate ≤ bitrate →
     bitrate ≤ st.nearestGreaterOrEqualBitrate →
     st.nearestGreaterOrEqualBitrate < U32 →
     r = if ndist st.nearestGreaterOrEqualBitrate bitrate <
           ndist bitrate st.nearestLesserOrEqualBitrate
         then st.nearestGreaterOrEqualBitrate else st.nearestLesserOrEqualBitrate) := by
  intro st r
  have hr : r = if u32sub st.nearestGreaterOrEqualBitrate bitrate <
      u32sub bitrate st.nearestLesserOrEqualBitrate
      then st.nearestGreaterOrEqualBitrate else st.nearestLesserOrEqualBitrate := rfl
  refine ⟨hr, ?_, ?_⟩
  · intro htie
    rw [hr, if_neg (by rw [htie]; exact Nat.lt_irrefl _)]
  · intro h1 h2 h3
    have hiff : (u32sub st.nearestGreaterOrEqualBitrate bitrate <
        u32sub bitrate st.nearestLesserOrEqualBitrate) ↔
        (ndist st.nearestGreaterOrEqualBitrate bitrate <
         ndist bitrate st.nearestLesserOrEqualBitrate) := by
      rw [u32sub_of_le _ _ h2 h3, u32sub_of_le _ _ h1 hb]
      simp only [ndist]
      omega
    rw [hr, if_congr hiff rfl rfl]

/-- C3, witness: the selection theorem applied at fuel 0 (loop not
entered), where the final candidates are the initial limits 12000000 and
1500 and the unsigned comparison picks nearestGE. -/
theorem getNearestCompatibleBitRate_selection_witness :
    getNearestCompatibleBitRate idModel 1500 12000000 0 entryChannel 1000 =
      (getNearestCompatibleBitRateFull idModel 1500 12000000 0
          entryChannel 1000).finalState.nearestGreaterOrEqualBitrate := by
  obtain ⟨h1, _, _⟩ :=
    getNearestCompatibleBitRate_selection idModel 1500 12000000 0 1000 entryChannel
      (by decide)
  rw [h1, if_pos (by decide)]

/-- Membership in a conditional singleton. -/
theorem mem_ite_singleton {α : Type} {x a : α} {c : Prop} [Decidable c] :
    (x ∈ if c then [a] else []) ↔ c ∧ x = a := by
  split <;> simp_all

/-- Closed form of prepareTaskList: the task list is the concatenation of
one conditional singleton per differing section, the unconditional
verification task, and the two conditional apply tasks after it. -/
theorem prepareTaskList_eq (edited device : Configuration) (ai : Bool) :
    prepareTaskList edited device ai =
      (if edited.manufacturer ≠ device.manufacturer then [taskWriteManufacturerDesc] else []) ++
      (if edited.product ≠ device.product then [taskWriteProductDesc] else []) ++
      (if edited.usbParameters ≠ device.usbParameters then [taskWriteUSBParameters] else []) ++
      (if edited.chipSettings ≠ device.chipSettings then [taskWriteChipSettings] else []) ++
      [taskVerifyConfiguration] ++
      (if ai = true ∧ edited.chipSettings ≠ device.chipSettings
       then [taskApplyChipSettings] else []) ++
      (if ai = true ∧ edited.spiSettings ≠ device.spiSettings
       then [taskApplySPISettings] else []) := by
  unfold prepareTaskList
  cases ai <;>
    by_cases h1 : edited.manufacturer = device.manufacturer <;>
    by_cases h2 : edited.product = device.product <;>
    by_cases h3 : edited.usbParameters = device.usbParameters <;>
    by_cases h4 : edited.chipSettings = device.chipSettings <;>
    by_cases h5 : edited.spiSettings = device.spiSettings <;>
    simp [h1, h2, h3, h4, h5]

/-- C4: prepareTaskList emits each write task exactly when the matching
section differs, always contains the verification task, contains the apply
tasks exactly when apply-immediately is set and the matching section
differs, splits as writes, then the verification task, then apply tasks
only, and collapses to exactly the singleton verification list on equal
configurations. -/
theorem prepareTaskList_spec (edited device : Configuration) (ai : Bool) :
    (taskWriteManufacturerDesc ∈ prepareTaskList edited device ai ↔
       edited.manufacturer ≠ device.manufacturer) ∧
    (taskWriteProductDesc ∈ prepareTaskList edited device ai ↔
       edited.product ≠ device.product) ∧
    (taskWriteUSBParameters ∈ prepareTaskList edited device ai ↔
       edited.usbParameters ≠ device.usbParameters) ∧
    (taskWriteChipSettings ∈ prepareTaskList edited device ai ↔
       edited.chipSettings ≠ device.chipSettings) ∧
    taskVerifyConfiguration ∈ prepareTaskList edited device ai ∧
    (taskApplyChipSettings ∈ prepareTaskList edited device ai ↔
       ai = true ∧ edited.chipSettings ≠ device.chipSettings) ∧
    (taskApplySPISettings ∈ prepareTaskList edited device ai ↔
       ai = true ∧ edited.spiSettings ≠ device.spiSettings) ∧
    (∃ pre post, prepareTaskList edited device ai =
        pre ++ taskVerifyConfiguration :: post ∧
      (∀ x ∈ pre, x = taskWriteManufacturerDesc ∨ x = taskWriteProductDesc ∨
        x = taskWriteUSBParameters ∨ x = taskWriteChipSettings) ∧
      (∀ x ∈ post, x = taskApplyChipSettings ∨ x = taskApplySPISettings)) ∧
    (edited = device → prepareTaskList edited device ai = [taskVerifyConfiguration]) := by
  refine ⟨?_, ?_, ?_, ?_, ?_, ?_, ?_, ?_, ?_⟩
  · rw [prepareTaskList_eq]
    simp +decide [List.mem_append, mem_ite_singleton, taskWriteManufacturerDesc,
      taskWriteProductDesc, taskWriteUSBParameters, taskWriteChipSettings,
      taskVerifyConfiguration, taskApplyChipSettings, taskApplySPISettings]
  · rw [prepareTaskList_eq]
    simp +decide [List.mem_append, mem_ite_singleton, taskWriteManufacturerDesc,
      taskWriteProductDesc, taskWriteUSBParameters, taskWriteChipSettings,
      taskVerifyConfiguration, taskApplyChipSettings, taskApplySPISettings]
  · rw [prepareTaskList_eq]
    simp +decide [List.mem_append, mem_ite_singleton, taskWriteManufacturerDesc,
      taskWriteProductDesc, taskWriteUSBParameters, taskWriteChipSettings,
      taskVerifyConfiguration, taskApplyChipSettings, taskApplySPISettings]
  · rw [prepareTaskList_eq]
    simp +decide [List.mem_append, mem_ite_singleton, taskWriteManufacturerDesc,
      taskWriteProductDesc, taskWriteUSBParameters, taskWriteChipSettings,
      taskVerifyConfiguration, taskApplyChipSettings, taskApplySPISettings]
  · rw [prepareTaskList_eq]
    simp [List.mem_append]
  · rw [prepareTaskList_eq]
    simp +decide [List.mem_append, mem_ite_singleton, taskWriteManufacturerDesc,
      taskWriteProductDesc, taskWriteUSBParameters, taskWriteChipSettings,
      taskVerifyConfiguration, taskApplyChipSettings, taskApplySPISettings]
  · rw [prepareTaskList_eq]
    simp +decide [List.mem_append, mem_ite_singleton, taskWriteManufacturerDesc,
      taskWriteProductDesc, taskWriteUSBParameters, taskWriteChipSettings,
      taskVerifyConfiguration, taskApplyChipSettings, taskApplySPISettings]
  · refine ⟨(if edited.manufacturer ≠ device.manufacturer then [taskWriteManufacturerDesc] else []) ++
      (if edited.product ≠ device.product then [taskWriteProductDesc] else []) ++
      (if edited.usbParameters ≠ device.usbParameters then [taskWriteUSBParameters] else []) ++
      (if edited.chipSettings ≠ device.chipSettings then [taskWriteChipSettings] else []),
      (if ai = true ∧ edited.chipSettings ≠ device.chipSettings
       then [taskApplyChipSettings] else []) ++
      (if ai = true ∧ edited.spiSettings ≠ device.spiSettings
       then [taskApplySPISettings] else []), ?_, ?_, ?_⟩
    · rw [prepareTaskList_eq]
      simp [List.append_assoc]
    · intro x hx
      simp only [List.mem_append, mem_ite_singleton] at hx
      rcases hx with (((⟨_, h⟩ | ⟨_, h⟩) | ⟨_, h⟩) | ⟨_, h⟩) <;> simp [h]
    · intro x hx
      simp only [List.mem_append, mem_ite_singleton] at hx
      rcases hx with ⟨_, h⟩ | ⟨_, h⟩ <;> simp [h]
  · intro h
    subst h
    rw [prepareTaskList_eq]
    simp

/-- Specification of the configureDevice loop, by induction on the task
list: started with err_ clear, the loop reports no error exactly when every
task validates cleanly in order; in that case every task was invoked in
list order; and on failure the invoked tasks are exactly a clean prefix
followed by the single failing task - nothing after it runs. -/
theorem configureDeviceLoop_spec (exec : String → Session → Session) :
    ∀ (tasks : List String) (s : Session), s.err = false →
      (((configureDeviceLoop exec tasks s).1.err = false ↔
          cleanRun exec tasks s = true) ∧
       ((configureDeviceLoop exec tasks s).1.err = false →
          (configureDeviceLoop exec tasks s).2 = tasks) ∧
       ((configureDeviceLoop exec tasks s).1.err = true →
          ∃ pre task post, tasks = pre ++ task :: post ∧
            (configureDeviceLoop exec tasks s).2 = pre ++ [task] ∧
            cleanRun exec pre s = true ∧
            (exec task (runSeq exec pre s)).err = true)) := by
  intro tasks
  induction tasks with
  | nil =>
    intro s hs
    refine ⟨by simp [configureDeviceLoop, cleanRun, hs], fun _ => rfl, ?_⟩
    intro hcontra
    rw [show (configureDeviceLoop exec [] s).1 = s from rfl] at hcontra
    rw [hcontra] at hs
    cases hs
  | cons task rest ih =>
    intro s hs
    by_cases h1 : (exec task s).err = true
    · have hloop : configureDeviceLoop exec (task :: rest) s = (exec task s, [task]) := by
        simp [configureDeviceLoop, h1]
      have hclean : cleanRun exec (task :: rest) s = false := by
        simp [cleanRun, h1]
      refine ⟨by simp [hloop, hclean, h1], by simp [hloop, h1], ?_⟩
      intro _
      exact ⟨[], task, rest, rfl, by simp [hloop], rfl, h1⟩
    · have h1f : (exec task s).err = false := by
        cases hval : (exec task s).err
        · rfl
        · exact absurd hval h1
      have hloop : configureDeviceLoop exec (task :: rest) s =
          ((configureDeviceLoop exec rest (exec task s)).1,
           task :: (configureDeviceLoop exec rest (exec task s)).2) := by
        simp [configureDeviceLoop, h1]
      have hclean : cleanRun exec (task :: rest) s = cleanRun exec rest (exec task s) := by
        simp [cleanRun, h1]
      obtain ⟨ih1, ih2, ih3⟩ := ih (exec task s) h1f
      refine ⟨by rw [hloop, hclean]; exact ih1, ?_, ?_⟩
      · intro herr
        rw [hloop] at herr ⊢
        simp only []
        rw [ih2 herr]
      · intro herr
        rw [hloop] at herr
        obtain ⟨pre, t2, post, he1, he2, he3, he4⟩ := ih3 herr
        refine ⟨task :: pre, t2, post, by rw [he1]; rfl, ?_, ?_, ?_⟩
        · rw [hloop]
          simp only [List.cons_append, List.cons.injEq, true_and]
          exact he2
        · simp [cleanRun, h1, he3]
        · exact he4

/-- C5: configureDevice executes its task list strictly in order, stopping
right after the first task whose validation reports failure: the overall
run reports success exactly when every task in the list (the mandatory
verification task included) validates cleanly, in which case every task was
invoked; on failure, the invoked tasks are exactly the clean prefix of the
list followed by the failing task, and no later task runs. -/
theorem configureDevice_ordered (exec : String → Session → Session)
    (tasks : List String) (s : Session) :
    (((configureDevice exec tasks s).1.err = false ↔
        cleanRun exec tasks { s with err := false } = true) ∧
     ((configureDevice exec tasks s).1.err = false →
        (configureDevice exec tasks s).2 = tasks) ∧
     ((configureDevice exec tasks s).1.err = true →
        ∃ pre task post, tasks = pre ++ task :: post ∧
          (configureDevice exec tasks s).2 = pre ++ [task] ∧
          cleanRun exec pre { s with err := false } = true ∧
          (exec task (runSeq exec pre { s with err := false })).err = true)) :=
  configureDeviceLoop_spec exec tasks { s with err := false } rfl

/-- Concrete values used by the closed witnesses below. -/
def usb0 : USBParameters :=
  { vid := 1240, pid := 222, maxpow := 50, powmode := 0, rmwakeup := false }

/-- A concrete chip settings value. -/
def chip0 : ChipSettings :=
  { gp0 := 0, gp1 := 0, gp2 := 0, gp3 := 0, gp4 := 0, gp5 := 0, gp6 := 0,
    gp7 := 0, gp8 := 0, gpdir := 255, gpout := 0, rmwakeup := false,
    intmode := 0, nrelspi := false }

/-- A concrete SPI settings value. -/
def spis0 : SPISettings :=
  { nbytes := 0, bitrate := 1000, mode := 0, actcs := 0, idlcs := 0,
    csdtdly := 0, dtcsdly := 0, itbytdly := 0 }

/-- A concrete configuration. -/
def config0 : Configuration :=
  { manufacturer := "Microchip Technology Inc.", product := "MCP2210 USB-to-SPI Master",
    usbParameters := usb0, chipSettings := chip0, spiSettings := spis0 }

/-- The same configuration with a different product descriptor. -/
def config1 : Configuration := { config0 with product := "Custom SPI Bridge" }

/-- A concrete session whose two configurations agree. -/
def sessionW : Session :=
  { deviceConfiguration := config0, editedConfiguration := config0,
    accessMode := 0, err := false, errmsg := "" }

/-- A concrete session whose edited configuration differs in the product. -/
def sessionMismatch : Session := { sessionW with editedConfiguration := config1 }

/-- A task interpreter for the witnesses: every task validates cleanly
except the given one, which raises err_. -/
def execStub (failing : String) : String → Session → Session :=
  fun task s => if task = failing then { s with err := true } else s

/-- C4, witness: for configurations differing only in the product, the task
list contains the product write and the verification task, and for equal
configurations it is exactly the verification singleton. -/
theorem prepareTaskList_spec_witness :
    (taskWriteProductDesc ∈ prepareTaskList config1 config0 false) ∧
    (taskVerifyConfiguration ∈ prepareTaskList config1 config0 false) ∧
    prepareTaskList config0 config0 true = [taskVerifyConfiguration] := by
  obtain ⟨_, h2, _, _, h5, _⟩ := prepareTaskList_spec config1 config0 false
  obtain ⟨_, _, _, _, _, _, _, _, h9⟩ := prepareTaskList_spec config0 config0 true
  exact ⟨h2.mpr (by decide), h5, h9 rfl⟩

/-- C5, witness: the ordered-run theorem applied to a concrete two-task
list under an interpreter that validates both cleanly - both tasks are
invoked in order and the run reports success. -/
theorem configureDevice_ordered_witness :
    (configureDevice (execStub taskApplyChipSettings)
        [taskWriteProductDesc, taskVerifyConfiguration] sessionW).2 =
      [taskWriteProductDesc, taskVerifyConfiguration] ∧
    (configureDevice (execStub taskApplyChipSettings)
        [taskWriteProductDesc, taskVerifyConfiguration] sessionW).1.err = false := by
  obtain ⟨h1, h2, _⟩ :=
    configureDevice_ordered (execStub taskApplyChipSettings)
      [taskWriteProductDesc, taskVerifyConfiguration] sessionW
  have herr : (configureDevice (execStub taskApplyChipSettings)
      [taskWriteProductDesc, taskVerifyConfiguration] sessionW).1.err = false :=
    h1.mpr (by decide)
  exact ⟨h2 herr, herr⟩

/-- A clean device report matching config0. -/
def report0 : DevReport :=
  { manufacturer := "Microchip Technology Inc.", product := "MCP2210 USB-to-SPI Master",
    usbParameters := usb0, chipSettings := chip0, spiSettings := spis0,
    accessMode := 0, errcnt := 0, errstr := "", disconnected := false }

/-- A failing device report: one transport error, and a manufacturer value
that differs from the stored configuration. -/
def reportErr : DevReport :=
  { report0 with manufacturer := "", errcnt := 1, errstr := "Failed control transfer\n" }

/-- An error-free readDeviceConfiguration only overwrites the stored
configuration and access mode. -/
theorem readDeviceConfiguration_clean (ch : DevReport) (s : Session)
    (hcnt : ch.errcnt = 0) :
    readDeviceConfiguration ch s =
      { s with deviceConfiguration := reportedConfiguration ch,
               accessMode := ch.accessMode } := by
  unfold readDeviceConfiguration validateOperation
  rw [hcnt]
  simp

/-- C7, counterexample to the claim as stated: a read in which the channel
reports one error still replaces the stored deviceConfiguration with the
values the getters returned. -/
theorem readDeviceConfiguration_error_cex :
    0 < reportErr.errcnt ∧
    (readDeviceConfiguration reportErr sessionW).deviceConfiguration ≠
      sessionW.deviceConfiguration := by
  exact ⟨by decide, by decide⟩

/-- C7 (amended): readDeviceConfiguration unconditionally overwrites the
stored deviceConfiguration (and access mode) with whatever the channel
getters returned, whether or not errors were reported; errors additionally
raise err_, while an error-free read changes nothing else. -/
theorem readDeviceConfiguration_overwrites (ch : DevReport) (s : Session) :
    ((readDeviceConfiguration ch s).deviceConfiguration = reportedConfiguration ch) ∧
    ((readDeviceConfiguration ch s).accessMode = ch.accessMode) ∧
    (0 < ch.errcnt → (readDeviceConfiguration ch s).err = true) ∧
    (ch.errcnt = 0 → readDeviceConfiguration ch s =
      { s with deviceConfiguration := reportedConfiguration ch,
               accessMode := ch.accessMode }) := by
  refine ⟨?_, ?_, ?_, fun h => readDeviceConfiguration_clean ch s h⟩
  · unfold readDeviceConfiguration validateOperation
    by_cases h : 0 < ch.errcnt
    · rw [if_pos h]
      by_cases hd : ch.disconnected = true <;> simp [hd]
    · rw [if_neg h]
  · unfold readDeviceConfiguration validateOperation
    by_cases h : 0 < ch.errcnt
    · rw [if_pos h]
      by_cases hd : ch.disconnected = true <;> simp [hd]
    · rw [if_neg h]
  · intro h
    unfold readDeviceConfiguration validateOperation
    rw [if_pos h]
    by_cases hd : ch.disconnected = true <;> simp [hd]

/-- C7, witness: the overwrite theorem applied to the failing report. -/
theorem readDeviceConfiguration_overwrites_witness :
    (readDeviceConfiguration reportErr sessionW).deviceConfiguration =
      reportedConfiguration reportErr ∧
    (readDeviceConfiguration reportErr sessionW).err = true := by
  obtain ⟨h1, _, h3, _⟩ := readDeviceConfiguration_overwrites reportErr sessionW
  exact ⟨h1, h3 (by decide)⟩

/-- C6: when the re-read itself reports no channel error (and the session
entered with err_ clear), verifyConfiguration raises err_ with exactly the
message of failedVerificationMessage precisely when any field of the
re-read configuration differs from editedConfiguration, and leaves err_
clear when every field matches; the verification message is distinct from
both transport-error outcomes (the reconnect prompt and any formatted read
failure). -/
theorem verifyConfiguration_spec (ch : DevReport) (s : Session)
    (hs : s.err = false) (hcnt : ch.errcnt = 0) :
    ((reportedConfiguration ch ≠ s.editedConfiguration →
        (verifyConfiguration ch s).err = true ∧
        (verifyConfiguration ch s).errmsg = failedVerificationMessage) ∧
     (reportedConfiguration ch = s.editedConfiguration →
        (verifyConfiguration ch s).err = false) ∧
     (∀ es : String, failureMessage readDeviceConfigurationName es ≠
        failedVerificationMessage) ∧
     failedVerificationMessage ≠ disconnectedMessage) := by
  have hv : verifyConfiguration ch s =
      if reportedConfiguration ch ≠ s.editedConfiguration then
        { s with deviceConfiguration := reportedConfiguration ch,
                 accessMode := ch.accessMode, err := true,
                 errmsg := failedVerificationMessage }
      else { s with deviceConfiguration := reportedConfiguration ch,
                    accessMode := ch.accessMode } := by
    unfold verifyConfiguration
    rw [readDeviceConfiguration_clean ch s hcnt]
    simp [hs]
  refine ⟨?_, ?_, ?_, by decide⟩
  · intro hne
    rw [hv, if_pos hne]
    exact ⟨rfl, rfl⟩
  · intro heq2
    rw [hv, if_neg (by simp [heq2])]
    exact hs
  · intro es h
    have hlen := congrArg String.length h
    simp only [failureMessage, String.length_append] at hlen
    have h1 : failureMessagePre.length = 10 := by decide
    have h2 : readDeviceConfigurationName.length = 25 := by decide
    have h3 : failedVerificationMessage.length = 20 := by decide
    omega

/-- C6, witness: the verification theorem applied to a clean report whose
configuration differs from the edited one in the product descriptor. -/
theorem verifyConfiguration_spec_witness :
    (verifyConfiguration report0 sessionMismatch).err = true ∧
    (verifyConfiguration report0 sessionMismatch).errmsg = failedVerificationMessage ∧
    (verifyConfiguration report0 sessionW).err = false := by
  obtain ⟨h1, _, _, _⟩ := verifyConfiguration_spec report0 sessionMismatch rfl rfl
  obtain ⟨_, h2, _, _⟩ := verifyConfiguration_spec report0 sessionW rfl rfl
  obtain ⟨ha, hb⟩ := h1 (by decide)
  exact ⟨ha, hb, h2 (by decide)⟩

/-- C8: with a zero error count validateOperation is the identity on the
session whatever the error text or the disconnected state, and with a
positive error count on a disconnected channel it raises err_ with the
fixed reconnect prompt, independent of the error text. -/
theorem validateOperation_classify (operation errstr : String) (disc : Bool)
    (errcnt : Nat) (s : Session) :
    validateOperation operation 0 errstr disc s = s ∧
    (0 < errcnt → validateOperation operation errcnt errstr true s =
      { s with err := true, errmsg := disconnectedMessage }) := by
  constructor
  · simp [validateOperation]
  · intro h
    simp [validateOperation, h]

/-- A sample error text ending in a line terminator. -/
def sampleErr : String := "Failed control transfer\n"

/-- C8, witness: the classification theorem at a concrete operation,
session, and non-empty error text. -/
theorem validateOperation_classify_witness :
    validateOperation readDeviceConfigurationName 0 sampleErr true sessionW = sessionW ∧
    validateOperation readDeviceConfigurationName 1 sampleErr true sessionW =
      { sessionW with err := true, errmsg := disconnectedMessage } := by
  obtain ⟨h1, h2⟩ :=
    validateOperation_classify readDeviceConfigurationName sampleErr true 1 sessionW
  exact ⟨h1, h2 (by decide)⟩

/-- Chopping one character after pushing one recovers the original. -/
theorem chop1_push (t : String) (c : Char) : chop1 (String.push t c) = t := by
  cases t with
  | mk data => simp [chop1, String.push]

/-- C9 (amended): with a positive error count on a connected channel,
validateOperation raises err_ and builds the failure message by removing
the last character of errstr - which is exactly the trailing line
terminator whenever errstr ends in one, the case the source comments assume
- and joining the remainder into a bulleted list introduced by the
operation name. -/
theorem validateOperation_message (operation errstr : String) (errcnt : Nat)
    (s : Session) (h : 0 < errcnt) :
    (validateOperation operation errcnt errstr false s).err = true ∧
    (validateOperation operation errcnt errstr false s).errmsg =
      failureMessagePre ++ operation ++ failureMessageMid ++ bulletize (chop1 errstr) ∧
    (∀ t : String, errstr = String.push t '\n' → chop1 errstr = t) := by
  refine ⟨?_, ?_, ?_⟩
  · simp [validateOperation, h]
  · simp [validateOperation, h, failureMessage]
  · intro t ht
    rw [ht, chop1_push]

/-- An error text that does not end in a line terminator. -/
def errAbc : String := "abc"

/-- The error text errAbc with its last character removed. -/
def errAb : String := "ab"

/-- An operation name used in the validator counterexample. -/
def opW : String := "apply SPI settings"

/-- C9, counterexample to the claim as stated: on the error text abc, which
ends in no line terminator, the code still removes the final character, so
the produced message drops the letter c - it is not errstr with (only) a
trailing terminator trimmed. -/
theorem validateOperation_chop_cex :
    (validateOperation opW 1 errAbc false sessionW).errmsg =
      failureMessagePre ++ opW ++ failureMessageMid ++ errAb ∧
    (validateOperation opW 1 errAbc false sessionW).errmsg ≠
      failureMessagePre ++ opW ++ failureMessageMid ++ errAbc := by
  exact ⟨by decide, by decide⟩

/-- C9, witness: the message theorem applied to a terminator-ended text. -/
theorem validateOperation_message_witness :
    (validateOperation opW 1 sampleErr false sessionW).err = true ∧
    (validateOperation opW 1 sampleErr false sessionW).errmsg =
      failureMessagePre ++ opW ++ failureMessageMid ++ bulletize (chop1 sampleErr) := by
  obtain ⟨h1, h2, _⟩ := validateOperation_message opW sampleErr 1 sessionW (by decide)
  exact ⟨h1, h2⟩

/-- Modelled from the spec: the pin-function codes of the external MCP2210
library (GPIO operation, chip-selects, dedicated function). -/
def PCGPIO : Nat := 0

/-- Modelled from the spec: the dedicated-function pin code. -/
def PCFUNC : Nat := 2

/-- The GUI widget values read by getEditedConfiguration (configuratorwindow.cpp
lines 586-632), abstracted to their already parsed values: the descriptor
texts, the numeric values obtained from the hexadecimal line edits, the
combo box indices, and the check box states. -/
structure UIState where
  lineEditManufacturer : String
  lineEditProduct : String
  lineEditVID : Nat
  lineEditPID : Nat
  lineEditMaxPowerHex : Nat
  comboBoxPowerMode : Nat
  checkBoxRemoteWakeUpCapable : Bool
  comboBoxGP0 : Nat
  comboBoxGP1 : Nat
  comboBoxGP2 : Nat
  comboBoxGP3 : Nat
  comboBoxGP4 : Nat
  comboBoxGP5 : Nat
  comboBoxGP6 : Nat
  comboBoxGP7 : Nat
  comboBoxGP8 : Nat
  checkBoxGP0DefaultValue : Bool
  checkBoxGP1DefaultValue : Bool
  checkBoxGP2DefaultValue : Bool
  checkBoxGP3DefaultValue : Bool
  checkBoxGP4DefaultValue : Bool
  checkBoxGP5DefaultValue : Bool
  checkBoxGP6DefaultValue : Bool
  checkBoxGP7DefaultValue : Bool
  comboBoxInterruptMode : Nat
  checkBoxRemoteWakeUp : Bool
  checkBoxSPIBusCaptive : Bool
deriving DecidableEq, Repr

/-- The 0/1 bit of a check box state. -/
def checkBit (b : Bool) : Nat := if b then 1 else 0

/-- The 0/1 bit of a combo box index not being 1 (pin direction: all pins
default to input except those explicitly set to be outputs). -/
def dirBit (idx : Nat) : Nat := if idx = 1 then 0 else 1

/-- A pin function from a combo box index (indices above 0 shift down by
one, index 0 selects GPIO), as on lines 595-602. -/
def pinFunction (idx : Nat) : Nat := if 0 < idx then idx - 1 else PCGPIO

/-- ConfiguratorWindow::getEditedConfiguration (configuratorwindow.cpp
lines 586-632): assemble editedConfiguration_ from the widget values (with
the quint8/quint16 casts as reductions mod 256 / 65536) - except for the
SPI settings, whose every field is copied from deviceConfiguration_
(lines 624-631). -/
def getEditedConfiguration (ui : UIState) (deviceConfiguration : Configuration) :
    Configuration :=
  { manufacturer := ui.lineEditManufacturer,
    product := ui.lineEditProduct,
    usbParameters :=
      { vid := ui.lineEditVID % 65536, pid := ui.lineEditPID % 65536,
        maxpow := ui.lineEditMaxPowerHex % 256,
        powmode := ui.comboBoxPowerMode % 256,
        rmwakeup := ui.checkBoxRemoteWakeUpCapable },
    chipSettings :=
      { gp0 := pinFunction ui.comboBoxGP0 % 256,
        gp1 := pinFunction ui.comboBoxGP1 % 256,
        gp2 := pinFunction ui.comboBoxGP2 % 256,
        gp3 := pinFunction ui.comboBoxGP3 % 256,
        gp4 := pinFunction ui.comboBoxGP4 % 256,
        gp5 := pinFunction ui.comboBoxGP5 % 256,
        gp6 := pinFunction ui.comboBoxGP6 % 256,
        gp7 := pinFunction ui.comboBoxGP7 % 256,
        gp8 := (if ui.comboBoxGP8 = 0 then PCGPIO else PCFUNC) % 256,
        gpdir := (dirBit ui.comboBoxGP7 <<< 7 ||| dirBit ui.comboBoxGP6 <<< 6 |||
                  dirBit ui.comboBoxGP5 <<< 5 ||| dirBit ui.comboBoxGP4 <<< 4 |||
                  dirBit ui.comboBoxGP3 <<< 3 ||| dirBit ui.comboBoxGP2 <<< 2 |||
                  dirBit ui.comboBoxGP1 <<< 1 ||| dirBit ui.comboBoxGP0) % 256,
        gpout := (checkBit ui.checkBoxGP7DefaultValue <<< 7 |||
                  checkBit ui.checkBoxGP6DefaultValue <<< 6 |||
                  checkBit ui.checkBoxGP5DefaultValue <<< 5 |||
                  checkBit ui.checkBoxGP4DefaultValue <<< 4 |||
                  checkBit ui.checkBoxGP3DefaultValue <<< 3 |||
                  checkBit ui.checkBoxGP2DefaultValue <<< 2 |||
                  checkBit ui.checkBoxGP1DefaultValue <<< 1 |||
                  checkBit ui.checkBoxGP0DefaultValue) % 256,
        rmwakeup := ui.checkBoxRemoteWakeUp,
        intmode := ui.comboBoxInterruptMode % 256,
        nrelspi := ui.checkBoxSPIBusCaptive },
    spiSettings :=
      { nbytes := deviceConfiguration.spiSettings.nbytes,
        bitrate := deviceConfiguration.spiSettings.bitrate,
        mode := deviceConfiguration.spiSettings.mode,
        actcs := deviceConfiguration.spiSettings.actcs,
        idlcs := deviceConfiguration.spiSettings.idlcs,
        csdtdly := deviceConfiguration.spiSettings.csdtdly,
        dtcsdly := deviceConfiguration.spiSettings.dtcsdly,
        itbytdly := deviceConfiguration.spiSettings.itbytdly } }

/-- C10: every getEditedConfiguration result carries the SPI settings of
the device-resident configuration unchanged, field by field; consequently a
task list built from a captured edited configuration against that same
device configuration never contains the applySPISettings task, whatever the
apply-immediately state. -/
theorem getEditedConfiguration_keeps_spi (ui : UIState) (device : Configuration)
    (ai : Bool) :
    (getEditedConfiguration ui device).spiSettings = device.spiSettings ∧
    taskApplySPISettings ∉ prepareTaskList (getEditedConfiguration ui device) device ai := by
  have h1 : (getEditedConfiguration ui device).spiSettings = device.spiSettings := rfl
  refine ⟨h1, ?_⟩
  intro hmem
  rw [prepareTaskList_eq] at hmem
  simp +decide [List.mem_append, mem_ite_singleton, taskWriteManufacturerDesc,
    taskWriteProductDesc, taskWriteUSBParameters, taskWriteChipSettings,
    taskVerifyConfiguration, taskApplyChipSettings, taskApplySPISettings, h1] at hmem

/-- A concrete UI state for the C10 witness. -/
def uiW : UIState :=
  { lineEditManufacturer := "Microchip Technology Inc.",
    lineEditProduct := "MCP2210 USB-to-SPI Master",
    lineEditVID := 1240, lineEditPID := 222, lineEditMaxPowerHex := 50,
    comboBoxPowerMode := 0, checkBoxRemoteWakeUpCapable := false,
    comboBoxGP0 := 0, comboBoxGP1 := 0, comboBoxGP2 := 0, comboBoxGP3 := 0,
    comboBoxGP4 := 0, comboBoxGP5 := 0, comboBoxGP6 := 0, comboBoxGP7 := 0,
    comboBoxGP8 := 0,
    checkBoxGP0DefaultValue := false, checkBoxGP1DefaultValue := false,
    checkBoxGP2DefaultValue := false, checkBoxGP3DefaultValue := false,
    checkBoxGP4DefaultValue := false, checkBoxGP5DefaultValue := false,
    checkBoxGP6DefaultValue := false, checkBoxGP7DefaultValue := false,
    comboBoxInterruptMode := 0, checkBoxRemoteWakeUp := false,
    checkBoxSPIBusCaptive := false }

/-- C10, witness: the capture-then-build theorem at a concrete UI state and
device configuration, with apply-immediately set. -/
theorem getEditedConfiguration_keeps_spi_witness :
    (getEditedConfiguration uiW config0).spiSettings = config0.spiSettings ∧
    taskApplySPISettings ∉ prepareTaskList (getEditedConfiguration uiW config0) config0 true :=
  getEditedConfiguration_keeps_spi uiW config0 true
